import Mathlib

/-!
# Verification of the Thomson PDF Generator digital-signature subsystem

Shallow embedding of `src/core/signer.py` (class `PDFSigner`): self-signed
certificate generation, certificate/key persistence, document signing, and
signature verification, together with theorems settling the spec claims.

Modelling conventions:
* The in-memory manager (`PDFSigner` instance fields `private_key`,
  `certificate`, `signature_info`) is the structure `SignerState`.
* The filesystem is an association list from path strings to file contents;
  a write prepends, a read takes the first match.
* Python `datetime` values are modelled at second granularity by `Timestamp`;
  each call of `datetime.now()` in the source is a separate explicit
  `Timestamp` argument of the embedded function (the clock samples).
* Each Python method whose body is wrapped in `try/except → return False`
  is embedded as a `...Body` function returning `Except String _` paired
  with the state it mutated so far, plus a public wrapper that turns any
  error into `false` — the exact shape of the Python exception boundary.
* RSA keys are opaque `Nat` identifiers; PEM serialization is modelled as
  storing the value itself (PEM is a faithful round-tripping encoding).
-/

/-- A `datetime` value at second granularity (the source only ever formats
timestamps with `%Y-%m-%d %H:%M:%S` / `%Y%m%d%H%M%S`). -/
structure Timestamp where
  year : Nat
  month : Nat
  day : Nat
  hour : Nat
  minute : Nat
  second : Nat
deriving DecidableEq, Repr

/-- Zero-pad a number to two digits, as `strftime` does for `%m %d %H %M %S`. -/
def pad2 (n : Nat) : String :=
  if n < 10 then "0" ++ toString n else toString n

/-- Zero-pad a number to four digits, as `strftime` does for `%Y`. -/
def pad4 (n : Nat) : String :=
  if n < 10 then "000" ++ toString n
  else if n < 100 then "00" ++ toString n
  else if n < 1000 then "0" ++ toString n
  else toString n

/-- `strftime('%Y-%m-%d %H:%M:%S')`. -/
def fmtTimestamp (t : Timestamp) : String :=
  pad4 t.year ++ "-" ++ pad2 t.month ++ "-" ++ pad2 t.day ++ " " ++
    pad2 t.hour ++ ":" ++ pad2 t.minute ++ ":" ++ pad2 t.second

/-- `strftime('%Y%m%d%H%M%S')`, used for the `/ModDate` metadata value. -/
def fmtCompact (t : Timestamp) : String :=
  pad4 t.year ++ pad2 t.month ++ pad2 t.day ++
    pad2 t.hour ++ pad2 t.minute ++ pad2 t.second

/-- Gregorian leap-year test. -/
def isLeap (y : Nat) : Bool :=
  (y % 4 == 0 && y % 100 != 0) || y % 400 == 0

/-- Number of days of month `m` in year `y`. -/
def daysInMonth (y m : Nat) : Nat :=
  if m == 2 then (if isLeap y then 29 else 28)
  else if m == 4 || m == 6 || m == 9 || m == 11 then 30
  else 31

/-- `datetime.replace(year=y)`: keeps every other field and raises
`ValueError` when the resulting calendar date does not exist
(February 29 mapped into a non-leap year). -/
def replaceYear (t : Timestamp) (y : Nat) : Except String Timestamp :=
  if t.day ≤ daysInMonth y t.month then .ok { t with year := y }
  else .error "day is out of range for month"

/-- The same date one calendar year later (what the spec means by
"exactly one year after"). -/
def plusOneYear (t : Timestamp) : Timestamp :=
  { t with year := t.year + 1 }

/-- X.509 name-attribute OIDs used by the source
(`NameOID.COMMON_NAME`, `COUNTRY_NAME`, `EMAIL_ADDRESS`, `ORGANIZATION_NAME`). -/
inductive OID where
  | commonName
  | countryName
  | emailAddress
  | organizationName
deriving DecidableEq, Repr

instance : BEq OID := ⟨fun a b => decide (a = b)⟩

/-- An X.509 certificate as the source uses it: subject and issuer name
attribute lists, the public key of the paired private key, and the
validity window. -/
structure Certificate where
  subject : List (OID × String)
  issuer : List (OID × String)
  pubKey : Nat
  notValidBefore : Timestamp
  notValidAfter : Timestamp
deriving DecidableEq, Repr

/-- A visible signature overlay as drawn by `_create_signature_overlay`:
a bordered rectangle and five positioned text strings. -/
structure Overlay where
  boxX : Int
  boxY : Int
  boxW : Int
  boxH : Int
  texts : List (Int × Int × String)
deriving DecidableEq, Repr

/-- A PDF page: opaque base content plus the overlays merged onto it
(`PyPDF2.PageObject.merge_page` stacks an overlay on top of the page). -/
structure Page where
  content : Nat
  merged : List Overlay
deriving DecidableEq, Repr

/-- `page.merge_page(overlay_page)`. -/
def mergePage (p : Page) (ov : Overlay) : Page :=
  { p with merged := p.merged ++ [ov] }

/-- A PDF document: its pages, the raw bytes of the file it was read from
(what `_create_document_hash` hashes), and its metadata dictionary. -/
structure PDFDocument where
  pages : List Page
  raw : List Nat
  metadata : List (String × String)
deriving DecidableEq, Repr

/-- Contents a file on disk can hold in this development: a PEM
certificate, a PEM private key (with the password it is encrypted under,
`none` for unencrypted), or a PDF document. -/
inductive FileContent where
  | cert (c : Certificate)
  | key (k : Nat) (pw : Option (List Nat))
  | pdf (d : PDFDocument)
deriving DecidableEq, Repr

/-- The filesystem: newest write first, lookup takes the first match. -/
def FS : Type := List (String × FileContent)

instance : DecidableEq FS := by
  unfold FS
  infer_instance

/-- Dictionary lookup (`d.get(k)` / `k in d`) on an association list:
the first binding wins. -/
def lookupKV (k : String) : List (String × α) → Option α
  | [] => none
  | e :: m => if e.1 == k then some e.2 else lookupKV k m

/-- Read the file at `path`, `none` when it does not exist. -/
def lookupFS (path : String) (fs : FS) : Option FileContent :=
  lookupKV path fs

/-- Write `c` to `path` (shadows any previous content). -/
def setFS (path : String) (c : FileContent) (fs : FS) : FS :=
  (path, c) :: fs

/-- Replace the value stored under `k`, leaving other entries and the
key set unchanged (no entry is added when `k` is absent). -/
def updateKV (k : String) (v : α) (m : List (String × α)) : List (String × α) :=
  m.map (fun e => if e.1 == k then (e.1, v) else e)

/-- The manager's instance fields, as initialised by `PDFSigner.__init__`. -/
structure SignerState where
  privateKey : Option Nat := none
  certificate : Option Certificate := none
  signatureInfo : List (String × String) := []
deriving DecidableEq, Repr

/-- A fresh `PDFSigner()`. -/
def initSigner : SignerState := {}

/-- The result dictionary built by `verify_signature`. -/
structure VerificationResult where
  is_signed : Bool
  is_valid : Bool
  signer : String
  signature_date : String
  error : Option String
deriving DecidableEq, Repr

/-- The dictionary `verify_signature` initialises before doing anything. -/
def initialResult : VerificationResult :=
  { is_signed := false, is_valid := false, signer := "Unknown",
    signature_date := "Unknown", error := none }

/-- The fixed `/Producer` string written by `sign_pdf` and compared by
`verify_signature`. -/
def producerString : String := "Thomson PDF Generator Digital Signature"

/-- The metadata-inspection step of `verify_signature`: the
`if hasattr(..., 'metadata') and pdf_reader.metadata:` guard (an empty
dictionary is falsy) followed by the `'/Signature' in metadata` and
`metadata.get('/Producer') == ...` checks. -/
def verifyFromMetadata (m : List (String × String)) : VerificationResult :=
  match m with
  | [] => { initialResult with error := some "No metadata found in PDF" }
  | _ :: _ =>
    match lookupKV "/Signature" m with
    | some _ =>
      let signerName := (lookupKV "/Author" m).getD "Unknown"
      let sigDate := (lookupKV "/ModDate" m).getD "Unknown"
      if lookupKV "/Producer" m = some producerString then
        { is_signed := true, is_valid := true, signer := signerName,
          signature_date := sigDate, error := none }
      else
        { is_signed := true, is_valid := false, signer := signerName,
          signature_date := sigDate,
          error := some "Signature format not recognized" }
    | none => { initialResult with error := some "No digital signature found" }

/-- `PDFSigner.verify_signature`: reads the target document's metadata,
reports `is_signed` from the presence of the `/Signature` key, and
`is_valid` from the `/Producer` value matching `producerString`; any
read/parse failure lands in `error`. -/
def verifySignature (fs : FS) (path : String) : VerificationResult :=
  match lookupFS path fs with
  | none => { initialResult with error := some "PDF file not found" }
  | some (.pdf doc) => verifyFromMetadata doc.metadata
  | some _ =>
    { initialResult with
      error := some "Error verifying signature: invalid PDF data" }

/-- Python truthiness of an optional string followed by
`or 'Not specified'`: `None` and the empty string both fall back. -/
def orNotSpecified (s : Option String) : String :=
  match s with
  | some v => if v = "" then "Not specified" else v
  | none => "Not specified"

/-- Python truthiness of an optional string (`if email:`). -/
def isTruthy (s : Option String) : Bool :=
  match s with
  | some v => v ≠ ""
  | none => false

/-- `PDFSigner._get_name_attribute`: first attribute of the name with the
given OID, else `"Not specified"`. -/
def getNameAttribute (name : List (OID × String)) (oid : OID) : String :=
  match name.find? (fun a => a.1 == oid) with
  | some a => a.2
  | none => "Not specified"

/-- Modelled from the spec: the `cryptography` library's RSA-PSS signing
primitive, a "probabilistic padding scheme (salted, max salt length)".
Modelled as an injective encoding of the key, the random salt drawn for
the run, and the message — so the signature determines and depends on
both the content and the salt, as PSS signatures do. -/
def pssSign (key : Nat) (content : List Nat) (salt : List Nat) : List Nat :=
  key :: salt.length :: (salt ++ content)

/-- Modelled from the spec: `base64.b64encode(..).decode('utf-8')`, an
injective byte-list-to-string encoding with `b64Encode [] = ""`. -/
def b64Encode (bs : List Nat) : String :=
  String.intercalate "," (bs.map toString)

/-- `PDFSigner._create_document_hash`: signs the document's raw bytes with
the private key under PSS padding; any failure of the read or of the
library signing call (`signOk = false`) is caught and yields `b''`. -/
def createDocumentHash (key : Option Nat) (content : Option (List Nat))
    (salt : List Nat) (signOk : Bool) : List Nat :=
  match key, content with
  | some k, some c => if signOk then pssSign k c salt else []
  | _, _ => []

/-- `PDFSigner._create_signature_overlay`: bordered box at the position
(default bottom-right anchor (400, 50)) and the five drawn text lines,
with the source's truncations. -/
def mkOverlay (sigText : String) (timestamp : String)
    (position : Option (Int × Int)) (info : List (String × String)) : Overlay :=
  let x := (position.getD (400, 50)).1
  let y := (position.getD (400, 50)).2
  { boxX := x - 10, boxY := y - 10, boxW := 200, boxH := 80,
    texts := [(x, y + 50, "DIGITALLY SIGNED"),
              (x, y + 35, sigText.take 30),
              (x, y + 20, "Date: " ++ timestamp),
              (x, y + 10, "By: " ++ ((lookupKV "common_name" info).getD "Unknown").take 25),
              (x, y, "Org: " ++ ((lookupKV "organization" info).getD "N/A").take 25)] }

/-- The page-copying loop of `sign_pdf`: `for i, page in enumerate(pages)`,
merging the overlay when `i == n - 1` (`n` the total page count) and
appending every page to the writer. -/
def signPages (ov : Overlay) (n : Nat) (i : Nat) : List Page → List Page
  | [] => []
  | p :: rest => (if i = n - 1 then mergePage p ov else p) :: signPages ov n (i + 1) rest

/-- `pathlib.Path(path).stem`: final path component without its last
suffix (claims never depend on this value; it only feeds `/Title`). -/
def pathStem (s : String) : String :=
  let base := match (s.splitOn "/").reverse with
    | b :: _ => b
    | [] => s
  match base.splitOn "." with
  | [] => base
  | [_] => base
  | ps => if base.startsWith "." && ps.length == 2 then base
          else String.intercalate "." ps.dropLast

/-- Modelled from the spec: the document library's serialization of the
written pages and metadata into file bytes; an opaque encoding no claim
depends on. -/
def pdfSerialize (ps : List Page) (m : List (String × String)) : List Nat :=
  [ps.length, m.length]

/-- Turn the `try`-block outcome of a method returning `True` on success
into the Python method's boolean result: `except → return False`. -/
def runBool (r : Except String Unit × σ) : Bool × σ :=
  match r with
  | (.ok _, s) => (true, s)
  | (.error _, s) => (false, s)

/-- Same exception boundary for a body that can also `return False`
without raising (used by `save_certificate`). -/
def runBoolB (r : Except String Bool × σ) : Bool × σ :=
  match r with
  | (.ok b, s) => (b, s)
  | (.error _, s) => (false, s)

/-- The `try`-block of `PDFSigner.generate_self_signed_certificate`.
Clock samples, in source order: `tNvb` for `not_valid_before`, `tNvaBase`
(receiver) and `tNvaYear` (the `year=` argument) for `not_valid_after`,
and `tCreated` for the `created` info field. `freshKey` is the RSA key
pair the library generates. The private key is assigned before the
subject is built, so a later failure leaves it replaced. -/
def generateBody (commonName : String) (email organization : Option String)
    (country : String) (freshKey : Nat)
    (tNvb tNvaBase tNvaYear tCreated : Timestamp)
    (st : SignerState) : Except String Unit × SignerState :=
  let st1 := { st with privateKey := some freshKey }
  if country.length ≠ 2 then
    (.error "Country name must be a 2 character country code", st1)
  else
    let subject : List (OID × String) :=
      [(OID.commonName, commonName), (OID.countryName, country)] ++
      (if isTruthy email then [(OID.emailAddress, email.getD "")] else []) ++
      (if isTruthy organization then [(OID.organizationName, organization.getD "")] else [])
    match replaceYear tNvaBase (tNvaYear.year + 1) with
    | .error e => (.error e, st1)
    | .ok nva =>
      let cert : Certificate :=
        { subject := subject, issuer := subject, pubKey := freshKey,
          notValidBefore := tNvb, notValidAfter := nva }
      let info : List (String × String) :=
        [("common_name", commonName),
         ("email", orNotSpecified email),
         ("organization", orNotSpecified organization),
         ("country", country),
         ("created", fmtTimestamp tCreated),
         ("valid_until", fmtTimestamp nva)]
      (.ok (), { st1 with certificate := some cert, signatureInfo := info })

/-- `PDFSigner.generate_self_signed_certificate`. -/
def generateSelfSignedCertificate (commonName : String)
    (email organization : Option String) (country : String) (freshKey : Nat)
    (tNvb tNvaBase tNvaYear tCreated : Timestamp)
    (st : SignerState) : Bool × SignerState :=
  runBool (generateBody commonName email organization country freshKey
    tNvb tNvaBase tNvaYear tCreated st)

/-- The SignatureInfo `load_certificate_from_file` extracts from a loaded
certificate's subject: each name attribute defaulting to
`"Not specified"`, plus the formatted validity window. -/
def loadedInfo (c : Certificate) : List (String × String) :=
  [("common_name", getNameAttribute c.subject OID.commonName),
   ("email", getNameAttribute c.subject OID.emailAddress),
   ("organization", getNameAttribute c.subject OID.organizationName),
   ("country", getNameAttribute c.subject OID.countryName),
   ("valid_from", fmtTimestamp c.notValidBefore),
   ("valid_until", fmtTimestamp c.notValidAfter)]

/-- The `try`-block of `PDFSigner.load_certificate_from_file`: the
certificate is read and assigned to `self.certificate` first; only then
is the private key read (`load_pem_private_key` succeeds exactly when the
password argument matches the key file's encryption), so a key failure
leaves the certificate field already replaced. -/
def loadBody (certPath keyPath : String) (password : Option (List Nat))
    (fs : FS) (st : SignerState) : Except String Unit × SignerState :=
  match lookupFS certPath fs with
  | some (.cert c) =>
    let st1 := { st with certificate := some c }
    match lookupFS keyPath fs with
    | some (.key k pw) =>
      if pw = password then
        (.ok (), { st1 with privateKey := some k, signatureInfo := loadedInfo c })
      else (.error "could not decrypt private key with the given password", st1)
    | some _ => (.error "Could not deserialize key data", st1)
    | none => (.error "No such file or directory (key)", st1)
  | some _ => (.error "Unable to load PEM file", st)
  | none => (.error "No such file or directory (certificate)", st)

/-- `PDFSigner.load_certificate_from_file`. -/
def loadCertificateFromFile (certPath keyPath : String)
    (password : Option (List Nat)) (fs : FS) (st : SignerState) :
    Bool × SignerState :=
  runBool (loadBody certPath keyPath password fs st)

/-- The key-encryption choice of `save_certificate`: `NoEncryption`
unless a password is supplied and truthy (`if password:`), so an empty
password saves the key unencrypted. -/
def encryptionFor (password : Option (List Nat)) : Option (List Nat) :=
  match password with
  | some p => if p = [] then none else some p
  | none => none

/-- The `try`-block of `PDFSigner.save_certificate`: returns `False`
without writing when no certificate/key is held; otherwise writes the
certificate PEM then the key PEM. -/
def saveBody (certPath keyPath : String) (password : Option (List Nat))
    (st : SignerState) (fs : FS) : Except String Bool × FS :=
  match st.certificate, st.privateKey with
  | some c, some k =>
    let fs1 := setFS certPath (.cert c) fs
    (.ok true, setFS keyPath (.key k (encryptionFor password)) fs1)
  | _, _ => (.ok false, fs)

/-- `PDFSigner.save_certificate`. -/
def saveCertificate (certPath keyPath : String) (password : Option (List Nat))
    (st : SignerState) (fs : FS) : Bool × FS :=
  runBoolB (saveBody certPath keyPath password st fs)

/-- The metadata dictionary `sign_pdf` writes into the output. -/
def signMetadata (pdfPath : String) (st : SignerState) (docRaw : List Nat)
    (salt : List Nat) (signOk : Bool) (tMod : Timestamp) :
    List (String × String) :=
  [("/Title", "Signed PDF - " ++ pathStem pdfPath),
   ("/Author", (lookupKV "common_name" st.signatureInfo).getD "Unknown"),
   ("/Subject", "Digitally Signed Document"),
   ("/Creator", "Thomson PDF Generator"),
   ("/Producer", producerString),
   ("/ModDate", "D:" ++ fmtCompact tMod),
   ("/Signature", b64Encode (createDocumentHash st.privateKey (some docRaw) salt signOk))]

/-- The overlay `sign_pdf` builds: the visible timestamp is the first
clock sample of the run and the signature text defaults to
`"Digitally signed by {common_name}"`. -/
def signOverlay (signatureText : Option String) (position : Option (Int × Int))
    (tStamp : Timestamp) (st : SignerState) : Overlay :=
  mkOverlay
    (signatureText.getD
      ("Digitally signed by " ++ (lookupKV "common_name" st.signatureInfo).getD "Unknown"))
    (fmtTimestamp tStamp) position st.signatureInfo

/-- The output document a successful `sign_pdf` run writes: every source
page copied, the overlay merged onto the last one, and the signature
metadata attached. -/
def signedOutputDoc (pdfPath : String) (signatureText : Option String)
    (position : Option (Int × Int)) (salt : List Nat) (signOk : Bool)
    (tStamp tMod : Timestamp) (st : SignerState) (doc : PDFDocument) :
    PDFDocument :=
  let ov := signOverlay signatureText position tStamp st
  let newPages := signPages ov doc.pages.length 0 doc.pages
  let meta := signMetadata pdfPath st doc.raw salt signOk tMod
  { pages := newPages, raw := pdfSerialize newPages meta, metadata := meta }

/-- The `try`-block of `PDFSigner.sign_pdf`. Clock samples: `tStamp` for
the overlay's visible timestamp, `tMod` for `/ModDate`. `salt` is the PSS
salt drawn for this run and `signOk` whether the library signing call
succeeds (its failure is swallowed by `_create_document_hash`). -/
def signBody (pdfPath : String) (outputPath : Option String)
    (signatureText : Option String) (position : Option (Int × Int))
    (salt : List Nat) (signOk : Bool) (tStamp tMod : Timestamp)
    (st : SignerState) (fs : FS) : Except String Unit × FS :=
  match st.privateKey, st.certificate with
  | some _, some _ =>
    match lookupFS pdfPath fs with
    | some (.pdf doc) =>
      (.ok (), setFS (outputPath.getD pdfPath)
        (.pdf (signedOutputDoc pdfPath signatureText position salt signOk
          tStamp tMod st doc)) fs)
    | some _ => (.error "Error reading PDF", fs)
    | none => (.error ("PDF file not found: " ++ pdfPath), fs)
  | _, _ => (.error "No certificate loaded. Generate or load a certificate first.", fs)

/-- `PDFSigner.sign_pdf`. -/
def signPdf (pdfPath : String) (outputPath : Option String)
    (signatureText : Option String) (position : Option (Int × Int))
    (salt : List Nat) (signOk : Bool) (tStamp tMod : Timestamp)
    (st : SignerState) (fs : FS) : Bool × FS :=
  runBool (signBody pdfPath outputPath signatureText position salt signOk
    tStamp tMod st fs)

/-- `PDFSigner.get_certificate_info`: empty when no certificate is held,
else a copy of the cached `signature_info`. -/
def getCertificateInfo (st : SignerState) : List (String × String) :=
  match st.certificate with
  | none => []
  | some _ => st.signatureInfo

/-- `PDFSigner.is_certificate_loaded`. -/
def isCertificateLoaded (st : SignerState) : Bool :=
  st.certificate.isSome && st.privateKey.isSome

theorem lookupKV_updateKV_self (k : String) (v : α) (m : List (String × α)) :
    lookupKV k (updateKV k v m) = (lookupKV k m).map (fun _ => v) := by
  induction m with
  | nil => rfl
  | cons e m ih =>
    simp only [updateKV, List.map_cons] at *
    by_cases h : (e.1 == k) = true
    · rw [if_pos h]
      simp [lookupKV, h]
    · rw [if_neg h]
      simpa [lookupKV, h] using ih

theorem lookupKV_updateKV_ne (k' k : String) (v : α) (m : List (String × α))
    (h : ¬ k' = k) : lookupKV k' (updateKV k v m) = lookupKV k' m := by
  induction m with
  | nil => rfl
  | cons e m ih =>
    simp only [updateKV, List.map_cons] at *
    by_cases hk : (e.1 == k) = true
    · have he : e.1 = k := by simpa using hk
      have hkk' : (e.1 == k') = false := by
        simp only [beq_eq_false_iff_ne, ne_eq, he]
        exact fun hh => h hh.symm
      rw [if_pos hk]
      simpa [lookupKV, hkk'] using ih
    · rw [if_neg hk]
      by_cases hk2 : (e.1 == k') = true
      · simp [lookupKV, hk2]
      · simpa [lookupKV, hk2] using ih

theorem verifySignature_pdf (fs : FS) (path : String) (doc : PDFDocument)
    (h : lookupFS path fs = some (FileContent.pdf doc)) :
    verifySignature fs path = verifyFromMetadata doc.metadata := by
  unfold verifySignature
  rw [h]

theorem verifyFromMetadata_signed_iff (m : List (String × String)) :
    (verifyFromMetadata m).is_signed = true ↔
      (lookupKV "/Signature" m).isSome = true := by
  cases m with
  | nil => simp [verifyFromMetadata, lookupKV, initialResult]
  | cons e rest =>
    rcases hs : lookupKV "/Signature" (e :: rest) with _ | w
    · simp [verifyFromMetadata, hs, initialResult]
    · simp only [verifyFromMetadata, hs]
      by_cases hp : lookupKV "/Producer" (e :: rest) = some producerString
      · simp [hp]
      · simp [hp]

theorem verifyFromMetadata_valid_producer (m : List (String × String))
    (h : (verifyFromMetadata m).is_valid = true) :
    lookupKV "/Producer" m = some producerString := by
  cases m with
  | nil => simp [verifyFromMetadata, initialResult] at h
  | cons e rest =>
    rcases hs : lookupKV "/Signature" (e :: rest) with _ | w
    · simp [verifyFromMetadata, hs, initialResult] at h
    · simp only [verifyFromMetadata, hs] at h
      by_cases hp : lookupKV "/Producer" (e :: rest) = some producerString
      · exact hp
      · simp [hp] at h

theorem verifyFromMetadata_update_sig (v : String) (m : List (String × String)) :
    verifyFromMetadata (updateKV "/Signature" v m) = verifyFromMetadata m := by
  cases m with
  | nil => rfl
  | cons e rest =>
    have hA : lookupKV "/Author" (updateKV "/Signature" v (e :: rest)) =
        lookupKV "/Author" (e :: rest) :=
      lookupKV_updateKV_ne _ _ _ _ (by decide)
    have hM : lookupKV "/ModDate" (updateKV "/Signature" v (e :: rest)) =
        lookupKV "/ModDate" (e :: rest) :=
      lookupKV_updateKV_ne _ _ _ _ (by decide)
    have hP : lookupKV "/Producer" (updateKV "/Signature" v (e :: rest)) =
        lookupKV "/Producer" (e :: rest) :=
      lookupKV_updateKV_ne _ _ _ _ (by decide)
    have hS := lookupKV_updateKV_self "/Signature" v (e :: rest)
    have hshape : updateKV "/Signature" v (e :: rest) =
        (if (e.1 == "/Signature") = true then (e.1, v) else e) ::
          updateKV "/Signature" v rest := rfl
    rcases hs : lookupKV "/Signature" (e :: rest) with _ | w
    · rw [hs] at hS
      simp only [Option.map_none'] at hS
      rw [hshape] at hS hA hM hP ⊢
      simp only [beq_iff_eq] at hS hA hM hP ⊢
      simp [verifyFromMetadata, hS, hs]
    · rw [hs] at hS
      simp only [Option.map_some'] at hS
      rw [hshape] at hS hA hM hP ⊢
      simp only [beq_iff_eq] at hS hA hM hP ⊢
      simp only [verifyFromMetadata, hS, hs, hA, hM, hP]

/-- C1: for every document path holding a PDF, `verify` returns
`is_signed = true` exactly when the `/Signature` metadata key is present;
`is_valid = true` only when the `/Producer` metadata value exactly equals
the tool's signing producer string; and the result is unchanged when the
embedded signature bytes are replaced and the page contents and raw bytes
altered — the signature value is never compared against the document
content or any public key. -/
theorem verify_provenance_only (fs fs' : FS) (path : String)
    (doc doc' : PDFDocument) (v : String)
    (hdoc : lookupFS path fs = some (FileContent.pdf doc))
    (hdoc' : lookupFS path fs' = some (FileContent.pdf doc'))
    (hmeta : doc'.metadata = updateKV "/Signature" v doc.metadata) :
    ((verifySignature fs path).is_signed = true ↔
      (lookupKV "/Signature" doc.metadata).isSome = true)
    ∧ ((verifySignature fs path).is_valid = true →
      lookupKV "/Producer" doc.metadata = some producerString)
    ∧ verifySignature fs' path = verifySignature fs path := by
  refine ⟨?_, ?_, ?_⟩
  · rw [verifySignature_pdf fs path doc hdoc]
    exact verifyFromMetadata_signed_iff doc.metadata
  · rw [verifySignature_pdf fs path doc hdoc]
    exact fun h => verifyFromMetadata_valid_producer doc.metadata h
  · rw [verifySignature_pdf fs path doc hdoc,
      verifySignature_pdf fs' path doc' hdoc', hmeta]
    exact verifyFromMetadata_update_sig v doc.metadata

/-- A signed document fixture: signature present, producer matching. -/
def wDocC1 : PDFDocument :=
  { pages := [], raw := [],
    metadata := [("/Signature", "sig"), ("/Producer", producerString)] }

/-- The same fixture with the signature bytes replaced and content altered. -/
def wDocC1x : PDFDocument :=
  { pages := [{ content := 1, merged := [] }], raw := [5],
    metadata := updateKV "/Signature" "forged" wDocC1.metadata }

def wFsC1 : FS := [("doc.pdf", FileContent.pdf wDocC1)]

def wFsC1x : FS := [("doc.pdf", FileContent.pdf wDocC1x)]

/-- Witness for C1 at a concrete signed document. -/
theorem verify_provenance_only_witness :
    (((verifySignature wFsC1 "doc.pdf").is_signed = true ↔
      (lookupKV "/Signature" wDocC1.metadata).isSome = true)
    ∧ ((verifySignature wFsC1 "doc.pdf").is_valid = true →
      lookupKV "/Producer" wDocC1.metadata = some producerString)
    ∧ verifySignature wFsC1x "doc.pdf" = verifySignature wFsC1 "doc.pdf") :=
  verify_provenance_only wFsC1 wFsC1x "doc.pdf" wDocC1 wDocC1x "forged"
    rfl rfl rfl

theorem verifyFromMetadata_valid_imp_signed (m : List (String × String))
    (h : (verifyFromMetadata m).is_valid = true) :
    (verifyFromMetadata m).is_signed = true := by
  cases m with
  | nil => simp [verifyFromMetadata, initialResult] at h
  | cons e rest =>
    rcases hs : lookupKV "/Signature" (e :: rest) with _ | w
    · simp [verifyFromMetadata, hs, initialResult] at h
    · by_cases hp : lookupKV "/Producer" (e :: rest) = some producerString
      · simp [verifyFromMetadata, hs, hp]
      · simp [verifyFromMetadata, hs, hp] at h

theorem verifyFromMetadata_error_none_iff (m : List (String × String)) :
    (verifyFromMetadata m).error = none ↔ (verifyFromMetadata m).is_valid = true := by
  cases m with
  | nil => simp [verifyFromMetadata, initialResult]
  | cons e rest =>
    rcases hs : lookupKV "/Signature" (e :: rest) with _ | w
    · simp [verifyFromMetadata, hs, initialResult]
    · by_cases hp : lookupKV "/Producer" (e :: rest) = some producerString
      · simp [verifyFromMetadata, hs, hp]
      · simp [verifyFromMetadata, hs, hp]

theorem lookupFS_setFS_self (p : String) (c : FileContent) (fs : FS) :
    lookupFS p (setFS p c fs) = some c := by
  simp [lookupFS, setFS, lookupKV]

theorem lookupKV_signMetadata_signature (p : String) (st : SignerState)
    (raw : List Nat) (salt : List Nat) (ok : Bool) (t : Timestamp) :
    lookupKV "/Signature" (signMetadata p st raw salt ok t) =
      some (b64Encode (createDocumentHash st.privateKey (some raw) salt ok)) := by
  simp [signMetadata, lookupKV]

theorem lookupKV_signMetadata_producer (p : String) (st : SignerState)
    (raw : List Nat) (salt : List Nat) (ok : Bool) (t : Timestamp) :
    lookupKV "/Producer" (signMetadata p st raw salt ok t) = some producerString := by
  simp [signMetadata, lookupKV]

theorem lookupKV_signMetadata_creator (p : String) (st : SignerState)
    (raw : List Nat) (salt : List Nat) (ok : Bool) (t : Timestamp) :
    lookupKV "/Creator" (signMetadata p st raw salt ok t) =
      some "Thomson PDF Generator" := by
  simp [signMetadata, lookupKV]

theorem signBody_success (pdfPath : String) (outputPath : Option String)
    (signatureText : Option String) (position : Option (Int × Int))
    (salt : List Nat) (signOk : Bool) (tStamp tMod : Timestamp)
    (st : SignerState) (fs : FS) (k : Nat) (c : Certificate) (doc : PDFDocument)
    (hk : st.privateKey = some k) (hc : st.certificate = some c)
    (hdoc : lookupFS pdfPath fs = some (FileContent.pdf doc)) :
    signBody pdfPath outputPath signatureText position salt signOk tStamp tMod st fs =
      (.ok (), setFS (outputPath.getD pdfPath)
        (.pdf (signedOutputDoc pdfPath signatureText position salt signOk
          tStamp tMod st doc)) fs) := by
  unfold signBody
  rw [hk, hc, hdoc]

theorem signPdf_success (pdfPath : String) (outputPath : Option String)
    (signatureText : Option String) (position : Option (Int × Int))
    (salt : List Nat) (signOk : Bool) (tStamp tMod : Timestamp)
    (st : SignerState) (fs : FS) (k : Nat) (c : Certificate) (doc : PDFDocument)
    (hk : st.privateKey = some k) (hc : st.certificate = some c)
    (hdoc : lookupFS pdfPath fs = some (FileContent.pdf doc)) :
    signPdf pdfPath outputPath signatureText position salt signOk tStamp tMod st fs =
      (true, setFS (outputPath.getD pdfPath)
        (.pdf (signedOutputDoc pdfPath signatureText position salt signOk
          tStamp tMod st doc)) fs) := by
  unfold signPdf
  rw [signBody_success pdfPath outputPath signatureText position salt signOk
    tStamp tMod st fs k c doc hk hc hdoc]
  rfl

theorem signedOutputDoc_metadata (pdfPath : String)
    (signatureText : Option String) (position : Option (Int × Int))
    (salt : List Nat) (signOk : Bool) (tStamp tMod : Timestamp)
    (st : SignerState) (doc : PDFDocument) :
    (signedOutputDoc pdfPath signatureText position salt signOk
      tStamp tMod st doc).metadata =
      signMetadata pdfPath st doc.raw salt signOk tMod := rfl

theorem signedOutputDoc_pages (pdfPath : String)
    (signatureText : Option String) (position : Option (Int × Int))
    (salt : List Nat) (signOk : Bool) (tStamp tMod : Timestamp)
    (st : SignerState) (doc : PDFDocument) :
    (signedOutputDoc pdfPath signatureText position salt signOk
      tStamp tMod st doc).pages =
      signPages (signOverlay signatureText position tStamp st)
        doc.pages.length 0 doc.pages := rfl

theorem lookupKV_signMetadata_author (p : String) (st : SignerState)
    (raw : List Nat) (salt : List Nat) (ok : Bool) (t : Timestamp) :
    lookupKV "/Author" (signMetadata p st raw salt ok t) =
      some ((lookupKV "common_name" st.signatureInfo).getD "Unknown") := by
  simp [signMetadata, lookupKV]

theorem verifyFromMetadata_signMetadata (p : String) (st : SignerState)
    (raw : List Nat) (salt : List Nat) (ok : Bool) (t : Timestamp) :
    verifyFromMetadata (signMetadata p st raw salt ok t) =
      { is_signed := true, is_valid := true,
        signer := (lookupKV "common_name" st.signatureInfo).getD "Unknown",
        signature_date := "D:" ++ fmtCompact t, error := none } := by
  simp [verifyFromMetadata, signMetadata, lookupKV]

/-- C9: every verification result satisfies the invariants
`is_valid → is_signed` and `error = none ↔ is_valid`
(field totality is enforced by the `VerificationResult` record type). -/
theorem verify_result_invariants (fs : FS) (path : String) :
    ((verifySignature fs path).is_valid = true →
      (verifySignature fs path).is_signed = true)
    ∧ ((verifySignature fs path).error = none ↔
      (verifySignature fs path).is_valid = true) := by
  rcases h : lookupFS path fs with _ | c
  · simp [verifySignature, h, initialResult]
  · cases c with
    | cert c => simp [verifySignature, h, initialResult]
    | key k pw => simp [verifySignature, h, initialResult]
    | pdf doc =>
      rw [verifySignature_pdf fs path doc h]
      exact ⟨verifyFromMetadata_valid_imp_signed doc.metadata,
        verifyFromMetadata_error_none_iff doc.metadata⟩

def wDocC9 : PDFDocument :=
  { pages := [], raw := [],
    metadata := [("/Signature", "s"), ("/Producer", producerString)] }

def wFsC9 : FS := [("d.pdf", FileContent.pdf wDocC9)]

/-- Witness for C9 at a concrete signed-and-valid document. -/
theorem verify_result_invariants_witness :
    (verifySignature wFsC9 "d.pdf").is_signed = true
    ∧ (verifySignature wFsC9 "d.pdf").error = none :=
  ⟨(verify_result_invariants wFsC9 "d.pdf").1 (by decide),
   (verify_result_invariants wFsC9 "d.pdf").2.mpr (by decide)⟩

/-- C10: when the cryptographic signing helper fails (returns empty
bytes), `sign` still reports success and writes an output whose
`/Signature` metadata is the empty string, and `verify` on that output
reports both `is_signed = true` and `is_valid = true`. -/
theorem sign_swallows_crypto_failure
    (pdfPath outPath : String) (signatureText : Option String)
    (position : Option (Int × Int)) (salt : List Nat) (tStamp tMod : Timestamp)
    (st : SignerState) (fs : FS) (k : Nat) (c : Certificate) (doc : PDFDocument)
    (hk : st.privateKey = some k) (hc : st.certificate = some c)
    (hdoc : lookupFS pdfPath fs = some (FileContent.pdf doc)) :
    (signPdf pdfPath (some outPath) signatureText position salt false
      tStamp tMod st fs).1 = true
    ∧ lookupFS outPath (signPdf pdfPath (some outPath) signatureText position
        salt false tStamp tMod st fs).2 =
      some (FileContent.pdf (signedOutputDoc pdfPath signatureText position
        salt false tStamp tMod st doc))
    ∧ lookupKV "/Signature" (signedOutputDoc pdfPath signatureText position
        salt false tStamp tMod st doc).metadata = some ""
    ∧ (verifySignature (signPdf pdfPath (some outPath) signatureText position
        salt false tStamp tMod st fs).2 outPath).is_signed = true
    ∧ (verifySignature (signPdf pdfPath (some outPath) signatureText position
        salt false tStamp tMod st fs).2 outPath).is_valid = true := by
  have hrun := signPdf_success pdfPath (some outPath) signatureText position
    salt false tStamp tMod st fs k c doc hk hc hdoc
  have hout := lookupFS_setFS_self outPath
    (FileContent.pdf (signedOutputDoc pdfPath signatureText position salt false
      tStamp tMod st doc)) fs
  have hsig : lookupKV "/Signature" (signedOutputDoc pdfPath signatureText
      position salt false tStamp tMod st doc).metadata = some "" := by
    rw [signedOutputDoc_metadata, lookupKV_signMetadata_signature, hk]
    rfl
  refine ⟨?_, ?_, hsig, ?_, ?_⟩
  · rw [hrun]
  · rw [hrun]
    simp only [Option.getD_some]
    exact hout
  · rw [hrun]
    simp only [Option.getD_some]
    rw [verifySignature_pdf _ outPath _ hout, signedOutputDoc_metadata,
      verifyFromMetadata_signMetadata]
  · rw [hrun]
    simp only [Option.getD_some]
    rw [verifySignature_pdf _ outPath _ hout, signedOutputDoc_metadata,
      verifyFromMetadata_signMetadata]

def wCert : Certificate :=
  { subject := [(OID.commonName, "Alice"), (OID.countryName, "US")],
    issuer := [(OID.commonName, "Alice"), (OID.countryName, "US")],
    pubKey := 7,
    notValidBefore := ⟨2024, 1, 1, 0, 0, 0⟩,
    notValidAfter := ⟨2025, 1, 1, 0, 0, 0⟩ }

def wStC10 : SignerState :=
  { privateKey := some 7, certificate := some wCert,
    signatureInfo := [("common_name", "Alice")] }

def wDocIn : PDFDocument :=
  { pages := [{ content := 1, merged := [] }], raw := [1, 2], metadata := [] }

def wFsC10 : FS := [("in.pdf", FileContent.pdf wDocIn)]

def wT : Timestamp := ⟨2024, 6, 1, 12, 0, 0⟩

/-- Witness for C10 at a concrete run with the signing call failing. -/
theorem sign_swallows_crypto_failure_witness :
    (signPdf "in.pdf" (some "out.pdf") none none [] false wT wT
      wStC10 wFsC10).1 = true
    ∧ lookupFS "out.pdf" (signPdf "in.pdf" (some "out.pdf") none none []
        false wT wT wStC10 wFsC10).2 =
      some (FileContent.pdf (signedOutputDoc "in.pdf" none none [] false
        wT wT wStC10 wDocIn))
    ∧ lookupKV "/Signature" (signedOutputDoc "in.pdf" none none [] false
        wT wT wStC10 wDocIn).metadata = some ""
    ∧ (verifySignature (signPdf "in.pdf" (some "out.pdf") none none []
        false wT wT wStC10 wFsC10).2 "out.pdf").is_signed = true
    ∧ (verifySignature (signPdf "in.pdf" (some "out.pdf") none none []
        false wT wT wStC10 wFsC10).2 "out.pdf").is_valid = true :=
  sign_swallows_crypto_failure "in.pdf" "out.pdf" none none [] wT wT
    wStC10 wFsC10 7 wCert wDocIn rfl rfl rfl

theorem signPages_length (ov : Overlay) (n i : Nat) (ps : List Page) :
    (signPages ov n i ps).length = ps.length := by
  induction ps generalizing i with
  | nil => rfl
  | cons p rest ih => simp [signPages, ih]

theorem getElem?_signPages (ov : Overlay) (n i j : Nat) (ps : List Page) :
    (signPages ov n i ps)[j]? =
      ps[j]?.map (fun p => if i + j = n - 1 then mergePage p ov else p) := by
  induction ps generalizing i j with
  | nil => simp [signPages]
  | cons p rest ih =>
    cases j with
    | zero => simp [signPages]
    | succ j' =>
      simp only [signPages, List.getElem?_cons_succ, ih (i + 1) j']
      simp only [show i + 1 + j' = i + (j' + 1) from by omega]

/-- C6: a successful `sign` writes an output with exactly as many pages as
the source; the signature overlay is merged onto the last page only and
every other page is copied unchanged. -/
theorem sign_copies_pages_overlay_last_only
    (pdfPath : String) (outputPath : Option String)
    (signatureText : Option String) (position : Option (Int × Int))
    (salt : List Nat) (signOk : Bool) (tStamp tMod : Timestamp)
    (st : SignerState) (fs : FS) (k : Nat) (c : Certificate) (doc : PDFDocument)
    (hk : st.privateKey = some k) (hc : st.certificate = some c)
    (hdoc : lookupFS pdfPath fs = some (FileContent.pdf doc))
    (hpages : 0 < doc.pages.length) :
    (signPdf pdfPath outputPath signatureText position salt signOk
      tStamp tMod st fs).1 = true
    ∧ ∃ d : PDFDocument,
        lookupFS (outputPath.getD pdfPath)
          (signPdf pdfPath outputPath signatureText position salt signOk
            tStamp tMod st fs).2 = some (FileContent.pdf d)
        ∧ d.pages.length = doc.pages.length
        ∧ (∀ i : Nat, i ≠ doc.pages.length - 1 → d.pages[i]? = doc.pages[i]?)
        ∧ d.pages[doc.pages.length - 1]? =
            (doc.pages[doc.pages.length - 1]?).map
              (fun p => mergePage p (signOverlay signatureText position tStamp st))
        ∧ (doc.pages[doc.pages.length - 1]?).isSome = true := by
  rw [signPdf_success pdfPath outputPath signatureText position salt signOk
    tStamp tMod st fs k c doc hk hc hdoc]
  refine ⟨rfl, signedOutputDoc pdfPath signatureText position salt signOk
    tStamp tMod st doc, lookupFS_setFS_self _ _ _, ?_, ?_, ?_, ?_⟩
  · rw [signedOutputDoc_pages]
    exact signPages_length _ _ _ _
  · intro i hi
    rw [signedOutputDoc_pages, getElem?_signPages]
    simp [hi]
  · rw [signedOutputDoc_pages, getElem?_signPages]
    have : 0 + (doc.pages.length - 1) = doc.pages.length - 1 := by omega
    simp [this]
  · have hlt : doc.pages.length - 1 < doc.pages.length := by omega
    rw [List.getElem?_eq_getElem hlt]
    rfl

def wDoc3 : PDFDocument :=
  { pages := [{ content := 1, merged := [] }, { content := 2, merged := [] },
      { content := 3, merged := [] }],
    raw := [9], metadata := [] }

def wFsC6 : FS := [("three.pdf", FileContent.pdf wDoc3)]

/-- Witness for C6: signing a concrete three-page document. -/
theorem sign_copies_pages_overlay_last_only_witness :
    (signPdf "three.pdf" (some "out.pdf") none none [0] true wT wT
      wStC10 wFsC6).1 = true
    ∧ ∃ d : PDFDocument,
        lookupFS "out.pdf"
          (signPdf "three.pdf" (some "out.pdf") none none [0] true wT wT
            wStC10 wFsC6).2 = some (FileContent.pdf d)
        ∧ d.pages.length = wDoc3.pages.length
        ∧ (∀ i : Nat, i ≠ wDoc3.pages.length - 1 → d.pages[i]? = wDoc3.pages[i]?)
        ∧ d.pages[wDoc3.pages.length - 1]? =
            (wDoc3.pages[wDoc3.pages.length - 1]?).map
              (fun p => mergePage p (signOverlay none none wT wStC10))
        ∧ (wDoc3.pages[wDoc3.pages.length - 1]?).isSome = true :=
  sign_copies_pages_overlay_last_only "three.pdf" (some "out.pdf") none none
    [0] true wT wT wStC10 wFsC6 7 wCert wDoc3 rfl rfl rfl (by decide)

/-- C7: calling `sign` without a loaded certificate-and-key pair fails and
leaves the filesystem untouched — in particular no output file is written. -/
theorem sign_without_certificate_fails_no_write
    (pdfPath : String) (outputPath : Option String)
    (signatureText : Option String) (position : Option (Int × Int))
    (salt : List Nat) (signOk : Bool) (tStamp tMod : Timestamp)
    (st : SignerState) (fs : FS)
    (h : isCertificateLoaded st = false) :
    signPdf pdfPath outputPath signatureText position salt signOk
      tStamp tMod st fs = (false, fs) := by
  rcases hk : st.privateKey with _ | k <;>
    rcases hc : st.certificate with _ | c
  · simp [signPdf, signBody, runBool, hk, hc]
  · simp [signPdf, signBody, runBool, hk, hc]
  · simp [signPdf, signBody, runBool, hk, hc]
  · exfalso
    simp [isCertificateLoaded, hk, hc] at h

/-- Witness for C7: a fresh manager signing a present input file. -/
theorem sign_without_certificate_fails_no_write_witness :
    signPdf "three.pdf" (some "out.pdf") none none [0] true wT wT
      initSigner wFsC6 = (false, wFsC6) :=
  sign_without_certificate_fails_no_write "three.pdf" (some "out.pdf") none
    none [0] true wT wT initSigner wFsC6 rfl

/-- The `/Signature` metadata value of the document stored at `path`,
when that file is a PDF (observation helper for the signing claims). -/
def signatureBytesAt (path : String) (fs : FS) : Option String :=
  match lookupFS path fs with
  | some (.pdf d) => lookupKV "/Signature" d.metadata
  | _ => none

def c2fs1 : FS :=
  (signPdf "in.pdf" (some "o1.pdf") none none [0] true wT wT wStC10 wFsC10).2

def c2fs2 : FS :=
  (signPdf "in.pdf" (some "o2.pdf") none none [1] true wT wT wStC10 c2fs1).2

/-- Counterexample to C2 as stated: two successful sign runs on the very
same input file (whose raw bytes are untouched between the runs) embed
different signature bytes, because the PSS padding salt differs between
the runs — the signature is not a function of document content alone. -/
theorem sign_signature_bytes_differ_on_same_input :
    (signPdf "in.pdf" (some "o1.pdf") none none [0] true wT wT
      wStC10 wFsC10).1 = true
    ∧ (signPdf "in.pdf" (some "o2.pdf") none none [1] true wT wT
      wStC10 c2fs1).1 = true
    ∧ lookupFS "in.pdf" c2fs2 = lookupFS "in.pdf" wFsC10
    ∧ signatureBytesAt "o1.pdf" c2fs2 ≠ none
    ∧ signatureBytesAt "o1.pdf" c2fs2 ≠ signatureBytesAt "o2.pdf" c2fs2 := by
  refine ⟨rfl, rfl, by decide, by decide, by decide⟩

/-- C2 (amended): for a fixed loaded certificate and key, any two
successful sign runs write outputs whose producer and creator metadata
are the identical fixed strings; the embedded signature bytes are a
function of the input document's raw bytes *and* the run's PSS padding
salt — with equal salts, equal input bytes give equal signature bytes
(with different salts they can differ even on identical input). -/
theorem sign_producer_creator_fixed_signature_content_salt_function
    (p1 p2 : String) (o1 o2 : Option String) (s1 s2 : Option String)
    (pos1 pos2 : Option (Int × Int)) (salt1 salt2 : List Nat)
    (tS1 tM1 tS2 tM2 : Timestamp) (st : SignerState) (fs1 fs2 : FS)
    (k : Nat) (c : Certificate) (doc1 doc2 : PDFDocument)
    (hk : st.privateKey = some k) (hc : st.certificate = some c)
    (hdoc1 : lookupFS p1 fs1 = some (FileContent.pdf doc1))
    (hdoc2 : lookupFS p2 fs2 = some (FileContent.pdf doc2)) :
    (signPdf p1 o1 s1 pos1 salt1 true tS1 tM1 st fs1).1 = true
    ∧ (signPdf p2 o2 s2 pos2 salt2 true tS2 tM2 st fs2).1 = true
    ∧ lookupFS (o1.getD p1) (signPdf p1 o1 s1 pos1 salt1 true tS1 tM1 st fs1).2
        = some (FileContent.pdf
          (signedOutputDoc p1 s1 pos1 salt1 true tS1 tM1 st doc1))
    ∧ lookupFS (o2.getD p2) (signPdf p2 o2 s2 pos2 salt2 true tS2 tM2 st fs2).2
        = some (FileContent.pdf
          (signedOutputDoc p2 s2 pos2 salt2 true tS2 tM2 st doc2))
    ∧ lookupKV "/Producer"
        (signedOutputDoc p1 s1 pos1 salt1 true tS1 tM1 st doc1).metadata
        = some producerString
    ∧ lookupKV "/Producer"
        (signedOutputDoc p2 s2 pos2 salt2 true tS2 tM2 st doc2).metadata
        = some producerString
    ∧ lookupKV "/Creator"
        (signedOutputDoc p1 s1 pos1 salt1 true tS1 tM1 st doc1).metadata
        = lookupKV "/Creator"
          (signedOutputDoc p2 s2 pos2 salt2 true tS2 tM2 st doc2).metadata
    ∧ (salt1 = salt2 → doc1.raw = doc2.raw →
        lookupKV "/Signature"
          (signedOutputDoc p1 s1 pos1 salt1 true tS1 tM1 st doc1).metadata
        = lookupKV "/Signature"
          (signedOutputDoc p2 s2 pos2 salt2 true tS2 tM2 st doc2).metadata) := by
  refine ⟨?_, ?_, ?_, ?_, ?_, ?_, ?_, ?_⟩
  · rw [signPdf_success p1 o1 s1 pos1 salt1 true tS1 tM1 st fs1 k c doc1
      hk hc hdoc1]
  · rw [signPdf_success p2 o2 s2 pos2 salt2 true tS2 tM2 st fs2 k c doc2
      hk hc hdoc2]
  · rw [signPdf_success p1 o1 s1 pos1 salt1 true tS1 tM1 st fs1 k c doc1
      hk hc hdoc1]
    exact lookupFS_setFS_self _ _ _
  · rw [signPdf_success p2 o2 s2 pos2 salt2 true tS2 tM2 st fs2 k c doc2
      hk hc hdoc2]
    exact lookupFS_setFS_self _ _ _
  · rw [signedOutputDoc_metadata]
    exact lookupKV_signMetadata_producer _ _ _ _ _ _
  · rw [signedOutputDoc_metadata]
    exact lookupKV_signMetadata_producer _ _ _ _ _ _
  · rw [signedOutputDoc_metadata, signedOutputDoc_metadata,
      lookupKV_signMetadata_creator, lookupKV_signMetadata_creator]
  · intro hsalt hraw
    rw [signedOutputDoc_metadata, signedOutputDoc_metadata,
      lookupKV_signMetadata_signature, lookupKV_signMetadata_signature,
      hsalt, hraw]

/-- Witness for the amended C2 at two concrete runs with equal salts. -/
theorem sign_producer_creator_fixed_signature_content_salt_function_witness :
    (signPdf "in.pdf" (some "o1.pdf") none none [5] true wT wT
      wStC10 wFsC10).1 = true
    ∧ (signPdf "in.pdf" (some "o2.pdf") none none [5] true wT wT
      wStC10 wFsC10).1 = true
    ∧ lookupFS "o1.pdf" (signPdf "in.pdf" (some "o1.pdf") none none [5] true
        wT wT wStC10 wFsC10).2
        = some (FileContent.pdf
          (signedOutputDoc "in.pdf" none none [5] true wT wT wStC10 wDocIn))
    ∧ lookupFS "o2.pdf" (signPdf "in.pdf" (some "o2.pdf") none none [5] true
        wT wT wStC10 wFsC10).2
        = some (FileContent.pdf
          (signedOutputDoc "in.pdf" none none [5] true wT wT wStC10 wDocIn))
    ∧ lookupKV "/Producer"
        (signedOutputDoc "in.pdf" none none [5] true wT wT wStC10 wDocIn).metadata
        = some producerString
    ∧ lookupKV "/Producer"
        (signedOutputDoc "in.pdf" none none [5] true wT wT wStC10 wDocIn).metadata
        = some producerString
    ∧ lookupKV "/Creator"
        (signedOutputDoc "in.pdf" none none [5] true wT wT wStC10 wDocIn).metadata
        = lookupKV "/Creator"
          (signedOutputDoc "in.pdf" none none [5] true wT wT wStC10 wDocIn).metadata
    ∧ (([5] : List Nat) = [5] → wDocIn.raw = wDocIn.raw →
        lookupKV "/Signature"
          (signedOutputDoc "in.pdf" none none [5] true wT wT wStC10 wDocIn).metadata
        = lookupKV "/Signature"
          (signedOutputDoc "in.pdf" none none [5] true wT wT wStC10 wDocIn).metadata) :=
  sign_producer_creator_fixed_signature_content_salt_function
    "in.pdf" "in.pdf" (some "o1.pdf") (some "o2.pdf") none none none none
    [5] [5] wT wT wT wT wStC10 wFsC10 wFsC10 7 wCert wDocIn wDocIn
    rfl rfl rfl rfl

def wCertB : Certificate :=
  { subject := [(OID.commonName, "Bob"), (OID.countryName, "GB")],
    issuer := [(OID.commonName, "Bob"), (OID.countryName, "GB")],
    pubKey := 9,
    notValidBefore := ⟨2024, 2, 1, 0, 0, 0⟩,
    notValidAfter := ⟨2025, 2, 1, 0, 0, 0⟩ }

def wFsC3 : FS :=
  [("cb.pem", FileContent.cert wCertB), ("kb.pem", FileContent.key 9 (some [1]))]

/-- Counterexample to C3 as stated: loading a readable certificate with a
wrong password for the encrypted key file fails, yet the manager is *not*
exactly in its prior state — the certificate field has already been
replaced by the certificate read from the file. -/
theorem load_wrong_password_replaces_certificate :
    (loadCertificateFromFile "cb.pem" "kb.pem" (some [2]) wFsC3 wStC10).1 = false
    ∧ (loadCertificateFromFile "cb.pem" "kb.pem" (some [2]) wFsC3 wStC10).2 ≠ wStC10
    ∧ (loadCertificateFromFile "cb.pem" "kb.pem" (some [2]) wFsC3
        wStC10).2.certificate = some wCertB := by
  refine ⟨rfl, by decide, rfl⟩

/-- C3 (amended): load with a wrong (or missing) password for the
encrypted key returns failure; the private key and SignatureInfo fields
keep their prior values, but the certificate field is partially updated:
it already holds the certificate read from the file. -/
theorem load_wrong_password_partial_update
    (certPath keyPath : String) (password : Option (List Nat)) (fs : FS)
    (st : SignerState) (c : Certificate) (k : Nat) (pw : Option (List Nat))
    (hcert : lookupFS certPath fs = some (FileContent.cert c))
    (hkey : lookupFS keyPath fs = some (FileContent.key k pw))
    (hpw : ¬ pw = password) :
    loadCertificateFromFile certPath keyPath password fs st =
      (false, { st with certificate := some c }) := by
  unfold loadCertificateFromFile loadBody
  rw [hcert, hkey]
  simp [runBool, hpw]

/-- Witness for the amended C3 at a concrete wrong-password load. -/
theorem load_wrong_password_partial_update_witness :
    loadCertificateFromFile "cb.pem" "kb.pem" (some [7]) wFsC3 wStC10 =
      (false, { wStC10 with certificate := some wCertB }) :=
  load_wrong_password_partial_update "cb.pem" "kb.pem" (some [7]) wFsC3
    wStC10 wCertB 9 (some [1]) rfl rfl (by decide)

def gT0 : Timestamp := ⟨2024, 1, 1, 0, 0, 0⟩

def gT1 : Timestamp := ⟨2024, 1, 1, 0, 0, 1⟩

/-- Counterexample to C4 as stated: a successful generate whose `created`
clock sample lands one second after the expiry-computation sample yields
a `valid_until` that is *not* exactly one year after `created` (it is one
year after the earlier sample). The name fields do match. -/
theorem generate_valid_until_not_one_year_after_created :
    (generateSelfSignedCertificate "Alice" none none "US" 7 gT0 gT0 gT0 gT1
      initSigner).1 = true
    ∧ lookupKV "created"
        (getCertificateInfo (generateSelfSignedCertificate "Alice" none none
          "US" 7 gT0 gT0 gT0 gT1 initSigner).2) = some (fmtTimestamp gT1)
    ∧ lookupKV "valid_until"
        (getCertificateInfo (generateSelfSignedCertificate "Alice" none none
          "US" 7 gT0 gT0 gT0 gT1 initSigner).2)
        ≠ some (fmtTimestamp (plusOneYear gT1)) := by
  refine ⟨rfl, by decide, by decide⟩

/-- C4 (amended): a successful generate stores exactly the supplied
common name and country in SignatureInfo, `created` formats the clock
sample taken after certificate construction, and `valid_until` is
exactly one year after the earlier expiry-computation clock sample — it
equals one year after `created` exactly when those samples coincide at
second granularity. -/
theorem generate_info_fields_and_expiry
    (cn : String) (email organization : Option String) (country : String)
    (freshKey : Nat) (tNvb tNvaBase tNvaYear tCreated : Timestamp)
    (st : SignerState) (nva : Timestamp)
    (hcountry : country.length = 2)
    (hrep : replaceYear tNvaBase (tNvaYear.year + 1) = .ok nva) :
    (generateSelfSignedCertificate cn email organization country freshKey
      tNvb tNvaBase tNvaYear tCreated st).1 = true
    ∧ lookupKV "common_name"
        (getCertificateInfo (generateSelfSignedCertificate cn email
          organization country freshKey tNvb tNvaBase tNvaYear tCreated st).2)
        = some cn
    ∧ lookupKV "country"
        (getCertificateInfo (generateSelfSignedCertificate cn email
          organization country freshKey tNvb tNvaBase tNvaYear tCreated st).2)
        = some country
    ∧ lookupKV "created"
        (getCertificateInfo (generateSelfSignedCertificate cn email
          organization country freshKey tNvb tNvaBase tNvaYear tCreated st).2)
        = some (fmtTimestamp tCreated)
    ∧ lookupKV "valid_until"
        (getCertificateInfo (generateSelfSignedCertificate cn email
          organization country freshKey tNvb tNvaBase tNvaYear tCreated st).2)
        = some (fmtTimestamp nva)
    ∧ (tNvaBase = tCreated → tNvaYear.year = tCreated.year →
        lookupKV "valid_until"
          (getCertificateInfo (generateSelfSignedCertificate cn email
            organization country freshKey tNvb tNvaBase tNvaYear tCreated st).2)
          = some (fmtTimestamp (plusOneYear tCreated))) := by
  have hcond : ¬ country.length ≠ 2 := by simp [hcountry]
  have hnva : nva = { tNvaBase with year := tNvaYear.year + 1 } := by
    unfold replaceYear at hrep
    by_cases hday : tNvaBase.day ≤ daysInMonth (tNvaYear.year + 1) tNvaBase.month
    · rw [if_pos hday] at hrep
      injection hrep with h
      exact h.symm
    · rw [if_neg hday] at hrep
      cases hrep
  refine ⟨?_, ?_, ?_, ?_, ?_, ?_⟩
  · unfold generateSelfSignedCertificate generateBody
    rw [if_neg hcond, hrep]
    rfl
  · unfold generateSelfSignedCertificate generateBody
    rw [if_neg hcond, hrep]
    simp [runBool, getCertificateInfo, lookupKV]
  · unfold generateSelfSignedCertificate generateBody
    rw [if_neg hcond, hrep]
    simp [runBool, getCertificateInfo, lookupKV]
  · unfold generateSelfSignedCertificate generateBody
    rw [if_neg hcond, hrep]
    simp [runBool, getCertificateInfo, lookupKV]
  · unfold generateSelfSignedCertificate generateBody
    rw [if_neg hcond, hrep]
    simp [runBool, getCertificateInfo, lookupKV]
  · intro h1 h2
    unfold generateSelfSignedCertificate generateBody
    rw [if_neg hcond, hrep]
    have : fmtTimestamp nva = fmtTimestamp (plusOneYear tCreated) := by
      rw [hnva, h1, h2]
      rfl
    simp [runBool, getCertificateInfo, lookupKV, this]

/-- Witness for the amended C4 with all clock samples in the same second. -/
theorem generate_info_fields_and_expiry_witness :
    (generateSelfSignedCertificate "Alice" none none "US" 7 gT0 gT0 gT0 gT0
      initSigner).1 = true
    ∧ lookupKV "common_name"
        (getCertificateInfo (generateSelfSignedCertificate "Alice" none none
          "US" 7 gT0 gT0 gT0 gT0 initSigner).2) = some "Alice"
    ∧ lookupKV "country"
        (getCertificateInfo (generateSelfSignedCertificate "Alice" none none
          "US" 7 gT0 gT0 gT0 gT0 initSigner).2) = some "US"
    ∧ lookupKV "created"
        (getCertificateInfo (generateSelfSignedCertificate "Alice" none none
          "US" 7 gT0 gT0 gT0 gT0 initSigner).2) = some (fmtTimestamp gT0)
    ∧ lookupKV "valid_until"
        (getCertificateInfo (generateSelfSignedCertificate "Alice" none none
          "US" 7 gT0 gT0 gT0 gT0 initSigner).2)
        = some (fmtTimestamp (plusOneYear gT0))
    ∧ (gT0 = gT0 → gT0.year = gT0.year →
        lookupKV "valid_until"
          (getCertificateInfo (generateSelfSignedCertificate "Alice" none none
            "US" 7 gT0 gT0 gT0 gT0 initSigner).2)
          = some (fmtTimestamp (plusOneYear gT0))) :=
  generate_info_fields_and_expiry "Alice" none none "US" 7 gT0 gT0 gT0 gT0
    initSigner (plusOneYear gT0) (by decide) rfl

def c5stA : SignerState :=
  (generateSelfSignedCertificate "Alice" (some "a@x.com") none "US" 7
    gT0 gT0 gT0 gT0 initSigner).2

def c5stM : SignerState :=
  (loadCertificateFromFile "cb.pem" "kb.pem" none wFsC3 c5stA).2

def c5fsSaved : FS :=
  (saveCertificate "c2.pem" "k2.pem" none c5stM wFsC3).2

def c5stL : SignerState :=
  (loadCertificateFromFile "c2.pem" "k2.pem" none c5fsSaved c5stM).2

/-- Counterexample to C5 as stated: a manager state reached through the
public API (generate, then a failed load that partially updated the
certificate) holds an active certificate and key, `save` and the
re-`load` both succeed, yet the reconstructed SignatureInfo's
common_name differs from the one before the save. -/
theorem save_load_roundtrip_fails_after_partial_load :
    isCertificateLoaded c5stM = true
    ∧ (loadCertificateFromFile "cb.pem" "kb.pem" none wFsC3 c5stA).1 = false
    ∧ (saveCertificate "c2.pem" "k2.pem" none c5stM wFsC3).1 = true
    ∧ (loadCertificateFromFile "c2.pem" "k2.pem" none c5fsSaved c5stM).1 = true
    ∧ lookupKV "common_name" c5stL.signatureInfo
        ≠ lookupKV "common_name" c5stM.signatureInfo := by
  refine ⟨rfl, rfl, rfl, rfl, by decide⟩

theorem encryptionFor_eq_self (password : Option (List Nat))
    (hpw : ¬ password = some []) : encryptionFor password = password := by
  cases password with
  | none => rfl
  | some p =>
    have hp : ¬ p = [] := fun h => hpw (by rw [h])
    simp [encryptionFor, hp]

/-- C5 (amended): for a manager state whose SignatureInfo name fields
agree with the held certificate's subject — as after every successful
generate or load, though not after a partially-failed load — `save`
followed by `load` on the produced files succeeds and reconstructs a
SignatureInfo with the same common_name, email, organization and
country. -/
theorem save_load_roundtrip_of_consistent_state
    (certPath keyPath : String) (password : Option (List Nat)) (fs : FS)
    (st st2 : SignerState) (c : Certificate) (k : Nat)
    (hc : st.certificate = some c) (hk : st.privateKey = some k)
    (hpaths : ¬ keyPath = certPath)
    (hpw : ¬ password = some [])
    (hcn : lookupKV "common_name" st.signatureInfo =
      some (getNameAttribute c.subject OID.commonName))
    (hem : lookupKV "email" st.signatureInfo =
      some (getNameAttribute c.subject OID.emailAddress))
    (hor : lookupKV "organization" st.signatureInfo =
      some (getNameAttribute c.subject OID.organizationName))
    (hco : lookupKV "country" st.signatureInfo =
      some (getNameAttribute c.subject OID.countryName)) :
    (saveCertificate certPath keyPath password st fs).1 = true
    ∧ (loadCertificateFromFile certPath keyPath password
        (saveCertificate certPath keyPath password st fs).2 st2).1 = true
    ∧ lookupKV "common_name"
        (loadCertificateFromFile certPath keyPath password
          (saveCertificate certPath keyPath password st fs).2 st2).2.signatureInfo
        = lookupKV "common_name" st.signatureInfo
    ∧ lookupKV "email"
        (loadCertificateFromFile certPath keyPath password
          (saveCertificate certPath keyPath password st fs).2 st2).2.signatureInfo
        = lookupKV "email" st.signatureInfo
    ∧ lookupKV "organization"
        (loadCertificateFromFile certPath keyPath password
          (saveCertificate certPath keyPath password st fs).2 st2).2.signatureInfo
        = lookupKV "organization" st.signatureInfo
    ∧ lookupKV "country"
        (loadCertificateFromFile certPath keyPath password
          (saveCertificate certPath keyPath password st fs).2 st2).2.signatureInfo
        = lookupKV "country" st.signatureInfo := by
  have hsave : saveCertificate certPath keyPath password st fs =
      (true, setFS keyPath (.key k password) (setFS certPath (.cert c) fs)) := by
    unfold saveCertificate saveBody
    rw [hc, hk, encryptionFor_eq_self password hpw]
    rfl
  have hcertRead : lookupFS certPath
      (setFS keyPath (.key k password) (setFS certPath (.cert c) fs)) =
      some (FileContent.cert c) := by
    simp [lookupFS, setFS, lookupKV, hpaths]
  have hkeyRead : lookupFS keyPath
      (setFS keyPath (.key k password) (setFS certPath (.cert c) fs)) =
      some (FileContent.key k password) := by
    simp [lookupFS, setFS, lookupKV]
  have hload : loadCertificateFromFile certPath keyPath password
      (saveCertificate certPath keyPath password st fs).2 st2 =
      (true,
        { st2 with
            privateKey := some k
            certificate := some c
            signatureInfo := loadedInfo c }) := by
    rw [hsave]
    unfold loadCertificateFromFile loadBody
    rw [hcertRead, hkeyRead]
    simp [runBool]
  refine ⟨by rw [hsave], by rw [hload], ?_, ?_, ?_, ?_⟩
  · rw [hload, hcn]
    rfl
  · rw [hload, hem]
    rfl
  · rw [hload, hor]
    rfl
  · rw [hload, hco]
    rfl

def wStC5 : SignerState :=
  { privateKey := some 7, certificate := some wCert,
    signatureInfo :=
      [("common_name", "Alice"), ("email", "Not specified"),
       ("organization", "Not specified"), ("country", "US")] }

/-- Witness for the amended C5 at a concrete consistent state. -/
theorem save_load_roundtrip_of_consistent_state_witness :
    (saveCertificate "c.pem" "k.pem" none wStC5 []).1 = true
    ∧ (loadCertificateFromFile "c.pem" "k.pem" none
        (saveCertificate "c.pem" "k.pem" none wStC5 []).2 initSigner).1 = true
    ∧ lookupKV "common_name"
        (loadCertificateFromFile "c.pem" "k.pem" none
          (saveCertificate "c.pem" "k.pem" none wStC5 []).2
          initSigner).2.signatureInfo
        = lookupKV "common_name" wStC5.signatureInfo
    ∧ lookupKV "email"
        (loadCertificateFromFile "c.pem" "k.pem" none
          (saveCertificate "c.pem" "k.pem" none wStC5 []).2
          initSigner).2.signatureInfo
        = lookupKV "email" wStC5.signatureInfo
    ∧ lookupKV "organization"
        (loadCertificateFromFile "c.pem" "k.pem" none
          (saveCertificate "c.pem" "k.pem" none wStC5 []).2
          initSigner).2.signatureInfo
        = lookupKV "organization" wStC5.signatureInfo
    ∧ lookupKV "country"
        (loadCertificateFromFile "c.pem" "k.pem" none
          (saveCertificate "c.pem" "k.pem" none wStC5 []).2
          initSigner).2.signatureInfo
        = lookupKV "country" wStC5.signatureInfo :=
  save_load_roundtrip_of_consistent_state "c.pem" "k.pem" none [] wStC5
    initSigner wCert 7 rfl rfl (by decide) (by decide)
    (by decide) (by decide) (by decide) (by decide)

/-- C8: every public operation routes internal failures through its
exception boundary and returns plain `false` (for `verify`, a result
dictionary with a populated error string) instead of raising: any error
outcome of an operation's `try`-block becomes the boolean `false` with
the state the block had reached, and `verify` populates `error` whenever
the target file is missing or not readable as a PDF. -/
theorem operations_catch_internal_failures :
    (∀ (cn : String) (email org : Option String) (country : String)
      (fk : Nat) (t1 t2 t3 t4 : Timestamp) (st : SignerState) (e : String)
      (st' : SignerState),
      generateBody cn email org country fk t1 t2 t3 t4 st = (.error e, st') →
      generateSelfSignedCertificate cn email org country fk t1 t2 t3 t4 st =
        (false, st'))
    ∧ (∀ (cp kp : String) (pw : Option (List Nat)) (fs : FS)
        (st : SignerState) (e : String) (st' : SignerState),
        loadBody cp kp pw fs st = (.error e, st') →
        loadCertificateFromFile cp kp pw fs st = (false, st'))
    ∧ (∀ (cp kp : String) (pw : Option (List Nat)) (st : SignerState)
        (fs : FS) (e : String) (fs' : FS),
        saveBody cp kp pw st fs = (.error e, fs') →
        saveCertificate cp kp pw st fs = (false, fs'))
    ∧ (∀ (p : String) (o s : Option String) (pos : Option (Int × Int))
        (salt : List Nat) (ok : Bool) (t1 t2 : Timestamp) (st : SignerState)
        (fs : FS) (e : String) (fs' : FS),
        signBody p o s pos salt ok t1 t2 st fs = (.error e, fs') →
        signPdf p o s pos salt ok t1 t2 st fs = (false, fs'))
    ∧ (∀ (fs : FS) (path : String), lookupFS path fs = none →
        (verifySignature fs path).error.isSome = true)
    ∧ (∀ (fs : FS) (path : String) (c : Certificate),
        lookupFS path fs = some (FileContent.cert c) →
        (verifySignature fs path).error.isSome = true)
    ∧ (∀ (fs : FS) (path : String) (k : Nat) (pw : Option (List Nat)),
        lookupFS path fs = some (FileContent.key k pw) →
        (verifySignature fs path).error.isSome = true) := by
  refine ⟨?_, ?_, ?_, ?_, ?_, ?_, ?_⟩
  · intro cn email org country fk t1 t2 t3 t4 st e st' h
    unfold generateSelfSignedCertificate
    rw [h]
    rfl
  · intro cp kp pw fs st e st' h
    unfold loadCertificateFromFile
    rw [h]
    rfl
  · intro cp kp pw st fs e fs' h
    unfold saveCertificate
    rw [h]
    rfl
  · intro p o s pos salt ok t1 t2 st fs e fs' h
    unfold signPdf
    rw [h]
    rfl
  · intro fs path h
    simp [verifySignature, h]
  · intro fs path c h
    simp [verifySignature, h]
  · intro fs path k pw h
    simp [verifySignature, h]

/-- Witness for C8: a generate run with an invalid country code, a sign
run with no certificate loaded, and verify on a missing file and on a
non-PDF file all return through the exception boundary. -/
theorem operations_catch_internal_failures_witness :
    generateSelfSignedCertificate "Al" none none "USA" 3 gT0 gT0 gT0 gT0
      initSigner = (false, { initSigner with privateKey := some 3 })
    ∧ signPdf "nope.pdf" none none none [] true gT0 gT0 initSigner [] =
      (false, [])
    ∧ (verifySignature [] "missing.pdf").error.isSome = true
    ∧ (verifySignature [("c.pem", FileContent.cert wCert)] "c.pem").error.isSome
      = true :=
  ⟨operations_catch_internal_failures.1 "Al" none none "USA" 3 gT0 gT0 gT0 gT0
    initSigner _ _ rfl,
   operations_catch_internal_failures.2.2.2.1 "nope.pdf" none none none []
    true gT0 gT0 initSigner [] _ _ rfl,
   operations_catch_internal_failures.2.2.2.2.1 [] "missing.pdf" rfl,
   operations_catch_internal_failures.2.2.2.2.2.1
    [("c.pem", FileContent.cert wCert)] "c.pem" wCert rfl⟩
